import Mathlib

/-!
Verification of the game-hub catalog application.

The development shallowly embeds the data model and the observable behaviour of
the application: the `GameQuery` filter state and the four update callbacks of
the root `App` component (src/App.tsx), the request construction of the
data-fetching hooks (src/hooks/useGames.ts, src/hooks/usePlatforms.ts and the
hooks shown in src/05_data_fetching_hooks_.md), the query-caching layer they
delegate to, and the render functions of `GameGrid` and `GenreList`.

TypeScript values that may be `null` or `undefined` are embedded as `Option`;
the HTTP client (axios) omits request parameters whose value is `undefined`,
so an `Option` that is `none` in a parameter record means the parameter is
absent from the issued request.
-/

/-- A game genre, from the `Genre` interface (src/hooks/useGenres.ts): `id`,
`name` and `image_background`. -/
structure Genre where
  id : Nat
  name : String
  image_background : String
deriving DecidableEq, Repr

/-- A platform as declared by the `Platform` interface of src/hooks/useGames.ts
(the declaration `GameQuery.platform` refers to): `id`, `name`, `slug`,
`metacritic`. -/
structure Platform where
  id : Nat
  name : String
  slug : String
  metacritic : Int
deriving DecidableEq, Repr

/-- One entry of `Game.parent_platform`, the anonymous object type
`\x7b platform: Platform \x7d` of src/hooks/useGames.ts. -/
structure PlatformWrapper where
  platform : Platform
deriving DecidableEq, Repr

/-- A game, from the `Game` interface of src/hooks/useGames.ts. -/
structure Game where
  id : Nat
  name : String
  background_image : String
  parent_platform : List PlatformWrapper
deriving DecidableEq, Repr

/-- The filter/sort/search state, from the `GameQuery` interface of src/App.tsx
(src/unnamed/part_002). `genre` and `platform` are declared `| null`;
`sortOrder` and `searchText` are declared `string`, but `App` initialises the
state as an empty object cast to `GameQuery`, so at runtime every field may
also be `undefined`. `Option` captures the runtime value space, with `none`
standing for `null` or `undefined`. -/
structure GameQuery where
  genre : Option Genre
  platform : Option Platform
  sortOrder : Option String
  searchText : Option String
deriving DecidableEq, Repr

/-- The query parameters `useGames` attaches to its request
(src/hooks/useGames.ts lines 18-22): exactly the three fields `genres`,
`platforms` and `ordering`. The HTTP client drops `undefined` values, so a
`none` field is absent from the issued request. -/
structure RequestParams where
  genres : Option Nat
  platforms : Option Nat
  ordering : Option String
deriving DecidableEq, Repr

/-- An HTTP request issued through the pre-configured client: an endpoint path
plus the per-request parameters. -/
structure FetchRequest where
  endpoint : String
  params : RequestParams
deriving DecidableEq, Repr

/-- The list-response shape of the remote API, from the `FetchResponse`
interface of src/services/api-client.ts (shown in src/unnamed/part_004):
a `count` and a `results` array. -/
structure FetchResponse (α : Type) where
  count : Nat
  results : List α
deriving DecidableEq, Repr

/-- The parameter record built by `useGames` (src/hooks/useGames.ts):
`genres: gameQuery.genre?.id`, `platforms: gameQuery.platform?.id`,
`ordering: gameQuery.sortOrder`. Optional chaining `?.` is `Option.map`. -/
def useGamesParams (q : GameQuery) : RequestParams :=
  { genres := q.genre.map Genre.id
  , platforms := q.platform.map Platform.id
  , ordering := q.sortOrder }

/-- The request `useGames` hands to the data layer: endpoint `/games` with the
parameters built from the query (src/hooks/useGames.ts lines 16-22). -/
def useGamesRequest (q : GameQuery) : FetchRequest :=
  { endpoint := "/games", params := useGamesParams q }

/-- A cache key handed to the query-caching layer: either a constant string
key such as `['platforms']` (src/hooks/usePlatforms.ts line 11) or a key built
from an endpoint together with a dependency list of query values, as
`useGames` passes `[gameQuery]` (src/hooks/useGames.ts line 22). -/
inductive QueryKey where
  | const : String → QueryKey
  | deps : String → List GameQuery → QueryKey
deriving DecidableEq, Repr

/-- The configuration a hook hands to the query-caching library: the cache
key, the request its fetch function performs over the pre-configured HTTP
client, the staleness window in milliseconds, and optional initial data. -/
structure QueryConfig (α : Type) where
  queryKey : QueryKey
  queryFn : FetchRequest
  staleTime : Nat
  initialData : Option (FetchResponse α)

/-- The cache of the query-caching library, as observable by one hook call:
what response, if any, is cached under a given key. -/
structure CacheState (α : Type) where
  lookup : QueryKey → Option (FetchResponse α)

/-- What a data-fetching hook returns to its component: the (possibly absent)
response data and the loading flag. -/
structure QueryResult (α : Type) where
  data : Option (FetchResponse α)
  isLoading : Bool
deriving DecidableEq, Repr

/-- Modelled from the spec: the query hook of the external request-caching
library, whose semantics src/06_react_query_integration_.md describes and
which is not part of this repository. A cache hit returns the cached response
with `isLoading` false; on a miss the configured `initialData`, when present,
is returned immediately with `isLoading` false; with neither, `data` is
absent and `isLoading` is true while the fetch function runs. -/
def useQueryModel {α : Type} (cfg : QueryConfig α) (cache : CacheState α) : QueryResult α :=
  match cache.lookup cfg.queryKey with
  | some r => { data := some r, isLoading := false }
  | none =>
    match cfg.initialData with
    | some r => { data := some r, isLoading := false }
    | none => { data := none, isLoading := true }

/-- Modelled from the spec: src/hooks/useData.ts is code of this repository
that is not among the provided sources; only its caller src/hooks/useGames.ts
is. Per src/05_data_fetching_hooks_.md the data hooks delegate to the caching
library, with a cache key built from the request and its inputs and a fetch
function running over the pre-configured HTTP client. `useData` therefore
forwards its endpoint, parameter record and dependency list unchanged as a
`QueryConfig` for the library, adding nothing of its own. -/
def useData {α : Type} (endpoint : String) (params : RequestParams)
    (deps : List GameQuery) (cache : CacheState α) : QueryResult α :=
  useQueryModel
    { queryKey := QueryKey.deps endpoint deps
    , queryFn := { endpoint := endpoint, params := params }
    , staleTime := 0
    , initialData := none } cache

/-- The hook `useGames` from src/hooks/useGames.ts: it calls
`useData<Game>('/games', ...params from gameQuery..., [gameQuery])`. -/
def useGames (gameQuery : GameQuery) (cache : CacheState Game) : QueryResult Game :=
  useData "/games" (useGamesParams gameQuery) [gameQuery] cache

/-- The `QueryConfig` that `useGames` amounts to: key built from the query
alone, fetch request built from the query alone, no staleness window, no
initial data. -/
def useGamesConfig (q : GameQuery) : QueryConfig Game :=
  { queryKey := QueryKey.deps "/games" [q]
  , queryFn := useGamesRequest q
  , staleTime := 0
  , initialData := none }

/-- The cache key `useGames` passes for a given query: the dependency list
`[gameQuery]` together with its endpoint. -/
def useGamesKey (q : GameQuery) : QueryKey :=
  QueryKey.deps "/games" [q]

/-- An empty parameter record, for the hooks whose requests carry no
per-request parameters. -/
def noParams : RequestParams :=
  { genres := none, platforms := none, ordering := none }

/-- The configuration of `useGenres`, from src/05_data_fetching_hooks_.md
lines 140-145 (src/hooks/useGenres.ts itself is not among the provided
sources): constant key `['genres']`, fetch of `/genres` over the client,
staleness window of 24 hours, no initial data. -/
def useGenresConfig : QueryConfig Genre :=
  { queryKey := QueryKey.const "genres"
  , queryFn := { endpoint := "/genres", params := noParams }
  , staleTime := 24 * 60 * 60 * 1000
  , initialData := none }

/-- The hook `useGenres`: the library applied to its constant configuration. -/
def useGenres (cache : CacheState Genre) : QueryResult Genre :=
  useQueryModel useGenresConfig cache

namespace Platforms

/-- A platform as declared by the `Platform` interface of
src/hooks/usePlatforms.ts: `id`, `name`, `slug` (no `metacritic`). -/
structure Platform where
  id : Nat
  name : String
  slug : String
deriving DecidableEq, Repr

end Platforms

/-- The configuration of `usePlatforms`, from src/hooks/usePlatforms.ts
lines 10-17: constant key `['platforms']`, fetch of
`/platforms/lists/parents` over the client, `staleTime: 24 * 60 * 60 * 1000`,
and `initialData: \x7bcount: platforms.length, results: platforms\x7d`.
Modelled from the spec: the bundled list src/data/platforms.ts is code of
this repository that is not among the provided sources, so the bundled list
is taken here as the parameter `platforms`. -/
def usePlatformsConfig (platforms : List Platforms.Platform) :
    QueryConfig Platforms.Platform :=
  { queryKey := QueryKey.const "platforms"
  , queryFn := { endpoint := "/platforms/lists/parents", params := noParams }
  , staleTime := 24 * 60 * 60 * 1000
  , initialData := some { count := platforms.length, results := platforms } }

/-- The hook `usePlatforms`: the library applied to its configuration. -/
def usePlatforms (platforms : List Platforms.Platform)
    (cache : CacheState Platforms.Platform) : QueryResult Platforms.Platform :=
  useQueryModel (usePlatformsConfig platforms) cache

/-- The `onSearch` callback `App` passes to `NavBar`
(src/unnamed/part_002 line 34): spread the current query, overwrite
`searchText`. -/
def onSearch (gameQuery : GameQuery) (searchText : String) : GameQuery :=
  { gameQuery with searchText := some searchText }

/-- The `onSelectGenre` callback `App` passes to `GenreList`
(src/unnamed/part_002 line 46): spread the current query, overwrite
`genre`. -/
def onSelectGenre (gameQuery : GameQuery) (genre : Genre) : GameQuery :=
  { gameQuery with genre := some genre }

/-- The `onSelectPlatform` callback `App` passes to `PlatformSelector`
(src/unnamed/part_002 lines 55-57): spread the current query, overwrite
`platform`. -/
def onSelectPlatform (gameQuery : GameQuery) (platform : Platform) : GameQuery :=
  { gameQuery with platform := some platform }

/-- The `onSelectSortOrder` callback `App` passes to `SortSelector`
(src/unnamed/part_002 lines 60-62): spread the current query, overwrite
`sortOrder`. -/
def onSelectSortOrder (gameQuery : GameQuery) (sortOrder : String) : GameQuery :=
  { gameQuery with sortOrder := some sortOrder }

/-- The initial state of `App` (src/unnamed/part_002 line 19): an empty
object cast to `GameQuery`, so every field is `undefined` at runtime. -/
def initialGameQuery : GameQuery :=
  { genre := none, platform := none, sortOrder := none, searchText := none }

/-- The content of one cell of the game grid: a loading skeleton or a
`GameCard` for a specific game. -/
inductive CellContent where
  | skeleton : CellContent
  | card : Game → CellContent
deriving DecidableEq, Repr

/-- One `GameCardContainer` in the grid, carrying its React key and its
wrapped content. -/
structure GridCell where
  key : Nat
  content : CellContent
deriving DecidableEq, Repr

/-- What `GameGrid` renders: an error text, or the grid of cells. -/
inductive GameGridView where
  | errorText : String → GameGridView
  | grid : List GridCell → GameGridView
deriving DecidableEq, Repr

/-- The fixed placeholder array `skeletons = [1, 2, 3, 4, 5, 6]` of
`GameGrid` (src/unnamed/part_000 line 58). -/
def skeletons : List Nat :=
  [1, 2, 3, 4, 5, 6]

/-- The render function of `GameGrid` (src/unnamed/part_000 lines 55-81):
on a truthy `error` it renders the error message; otherwise it renders the
grid holding, first, one skeleton per element of the `skeletons` array when
`isLoading` (each in a `GameCardContainer` keyed by the array element), and
then one `GameCard` per element of `data?.results` in order (each in a
`GameCardContainer` keyed by `game.id`); absent `data` contributes nothing
via optional chaining. -/
def gameGrid (error : Option String) (isLoading : Bool)
    (data : Option (FetchResponse Game)) : GameGridView :=
  match error with
  | some e => GameGridView.errorText e
  | none =>
    GameGridView.grid
      ((if isLoading then
          skeletons.map (fun k => { key := k, content := CellContent.skeleton })
        else []) ++
        (match data with
        | some d => d.results.map (fun g => { key := g.id, content := CellContent.card g })
        | none => []))

/-- What `GenreList` renders: nothing (the `null` return), a spinner, or the
list of genre rows, each carrying its React key (`genre.id`) and the
displayed genre name. -/
inductive GenreListView where
  | nothing : GenreListView
  | spinner : GenreListView
  | list : List (Nat × String) → GenreListView
deriving DecidableEq, Repr

/-- The render function of `GenreList` (src/components/GenreList.tsx lines
17-46): `if (error) return null`, then `if (isLoading)` a spinner, else one
list item per genre, keyed by `genre.id` and showing `genre.name`. -/
def genreList (error : Option String) (isLoading : Bool)
    (data : List Genre) : GenreListView :=
  match error with
  | some _ => GenreListView.nothing
  | none =>
    if isLoading then GenreListView.spinner
    else GenreListView.list (data.map (fun g => (g.id, g.name)))

/-- A concrete genre used to instantiate witnesses. -/
def sampleGenre : Genre :=
  { id := 4, name := "Action", image_background := "bg" }

/-- A concrete platform (the `useGames` shape) used to instantiate
witnesses. -/
def samplePlatform : Platform :=
  { id := 1, name := "PC", slug := "pc", metacritic := 90 }

/-- A concrete platform (the `usePlatforms` shape) used to instantiate
witnesses. -/
def sampleListPlatform : Platforms.Platform :=
  { id := 1, name := "PC", slug := "pc" }

/-- A concrete fully-populated query used to instantiate witnesses. -/
def sampleQuery : GameQuery :=
  { genre := some sampleGenre
  , platform := some samplePlatform
  , sortOrder := some "-released"
  , searchText := some "zelda" }

/-- A concrete game used to instantiate witnesses. -/
def sampleGame : Game :=
  { id := 7, name := "Celeste", background_image := "img", parent_platform := [] }

/-- A concrete successful response used to instantiate witnesses. -/
def sampleResponse : FetchResponse Game :=
  { count := 1, results := [sampleGame] }

/-- A cache holding nothing, used to instantiate witnesses. -/
def emptyCache : CacheState Game :=
  { lookup := fun _ => none }

/-- A platforms cache holding nothing, used to instantiate witnesses. -/
def emptyPlatformCache : CacheState Platforms.Platform :=
  { lookup := fun _ => none }

/-- Helper: under the library model, a hook call that reports `isLoading`
has no data (it is loading precisely because neither the cache nor the
initial data supplied a response). -/
theorem useQueryModel_data_none_of_isLoading {α : Type} (cfg : QueryConfig α)
    (cache : CacheState α) (h : (useQueryModel cfg cache).isLoading = true) :
    (useQueryModel cfg cache).data = none := by
  cases hl : cache.lookup cfg.queryKey with
  | some r => simp [useQueryModel, hl] at h
  | none =>
    cases hi : cfg.initialData with
    | some r => simp [useQueryModel, hl, hi] at h
    | none => simp [useQueryModel, hl, hi]

/-- Helper: under the library model, a hook whose configuration supplies
initial data always returns some data. -/
theorem useQueryModel_data_isSome {α : Type} (cfg : QueryConfig α)
    (cache : CacheState α) (r : FetchResponse α) (h : cfg.initialData = some r) :
    ((useQueryModel cfg cache).data).isSome = true := by
  cases hl : cache.lookup cfg.queryKey with
  | some s => simp [useQueryModel, hl]
  | none => simp [useQueryModel, hl, h]

/-- Claim C1: at the failing input — a `GameQuery` whose `searchText` is the
non-empty string "zelda" — the request `useGames` issues carries no parameter
derived from `searchText`: its parameter record holds only the `genres`,
`platforms` and `ordering` fields, all absent here, and the issued request is
identical to the one issued for the initial query whose `searchText` is
unset. Searching therefore does not refine the request, contradicting the
claim and the description in src/05_data_fetching_hooks_.md. -/
theorem useGames_request_ignores_searchText :
    useGamesRequest
        { genre := none, platform := none, sortOrder := none
        , searchText := some "zelda" }
      = useGamesRequest initialGameQuery
    ∧ useGamesParams
        { genre := none, platform := none, sortOrder := none
        , searchText := some "zelda" }
      = { genres := none, platforms := none, ordering := none } :=
  ⟨rfl, rfl⟩

/-- Claim C2: for every `GameQuery`, the request `useGames` issues goes to
`/games`; its `genres` parameter is the id of the selected genre and absent
when no genre is selected; its `platforms` parameter is the id of the
selected platform and absent when no platform is selected; and its `ordering`
parameter equals the query sort order. -/
theorem useGames_params_faithful (q : GameQuery) :
    (useGamesRequest q).endpoint = "/games"
    ∧ (∀ g : Genre, q.genre = some g →
        (useGamesRequest q).params.genres = some g.id)
    ∧ (q.genre = none → (useGamesRequest q).params.genres = none)
    ∧ (∀ p : Platform, q.platform = some p →
        (useGamesRequest q).params.platforms = some p.id)
    ∧ (q.platform = none → (useGamesRequest q).params.platforms = none)
    ∧ (useGamesRequest q).params.ordering = q.sortOrder := by
  refine ⟨rfl, ?_, ?_, ?_, ?_, rfl⟩
  · intro g hg
    simp [useGamesRequest, useGamesParams, hg]
  · intro hg
    simp [useGamesRequest, useGamesParams, hg]
  · intro p hp
    simp [useGamesRequest, useGamesParams, hp]
  · intro hp
    simp [useGamesRequest, useGamesParams, hp]

/-- Witness for C2: the conditional parts discharged at a fully-populated
query and at the initial empty query. -/
theorem useGames_params_faithful_witness :
    (useGamesRequest sampleQuery).params.genres = some sampleGenre.id
    ∧ (useGamesRequest sampleQuery).params.platforms = some samplePlatform.id
    ∧ (useGamesRequest initialGameQuery).params.genres = none
    ∧ (useGamesRequest initialGameQuery).params.platforms = none :=
  ⟨(useGames_params_faithful sampleQuery).2.1 sampleGenre rfl,
   (useGames_params_faithful sampleQuery).2.2.2.1 samplePlatform rfl,
   (useGames_params_faithful initialGameQuery).2.2.1 rfl,
   (useGames_params_faithful initialGameQuery).2.2.2.2.1 rfl⟩

/-- Claim C3: each of the four update callbacks `App` passes down produces,
from any current query and any selected value, a new `GameQuery` equal to the
old one in every field except the single field that callback is responsible
for, which is set to the selected value: `onSearch` sets `searchText`,
`onSelectGenre` sets `genre`, `onSelectPlatform` sets `platform`,
`onSelectSortOrder` sets `sortOrder`. -/
theorem app_callbacks_frame (q : GameQuery) (s : String) (g : Genre)
    (p : Platform) (o : String) :
    ((onSearch q s).genre = q.genre
      ∧ (onSearch q s).platform = q.platform
      ∧ (onSearch q s).sortOrder = q.sortOrder
      ∧ (onSearch q s).searchText = some s)
    ∧ ((onSelectGenre q g).platform = q.platform
      ∧ (onSelectGenre q g).sortOrder = q.sortOrder
      ∧ (onSelectGenre q g).searchText = q.searchText
      ∧ (onSelectGenre q g).genre = some g)
    ∧ ((onSelectPlatform q p).genre = q.genre
      ∧ (onSelectPlatform q p).sortOrder = q.sortOrder
      ∧ (onSelectPlatform q p).searchText = q.searchText
      ∧ (onSelectPlatform q p).platform = some p)
    ∧ ((onSelectSortOrder q o).genre = q.genre
      ∧ (onSelectSortOrder q o).platform = q.platform
      ∧ (onSelectSortOrder q o).searchText = q.searchText
      ∧ (onSelectSortOrder q o).sortOrder = some o) :=
  ⟨⟨rfl, rfl, rfl, rfl⟩, ⟨rfl, rfl, rfl, rfl⟩,
   ⟨rfl, rfl, rfl, rfl⟩, ⟨rfl, rfl, rfl, rfl⟩⟩

/-- Claim C4: every data-fetching hook is a thin configuration of the
request-caching library: on any cache state its result is exactly the
library result on a configuration computed purely from the hook inputs
(key construction plus fetch-function delegation), so none of the hooks adds
caching, deduplication, staleness or retry behaviour of its own. -/
theorem hooks_thin_config (q : GameQuery) (ps : List Platforms.Platform)
    (cg : CacheState Game) (cgen : CacheState Genre)
    (cp : CacheState Platforms.Platform) :
    useGames q cg = useQueryModel (useGamesConfig q) cg
    ∧ useGenres cgen = useQueryModel useGenresConfig cgen
    ∧ usePlatforms ps cp = useQueryModel (usePlatformsConfig ps) cp :=
  ⟨rfl, rfl, rfl⟩

/-- Claim C5: the cache key of the games query is computed purely from the
filter state — two runs on equal `GameQuery` values produce the same key and
the same fetch request — and the keys of the other hooks are the constants
`genres` and `platforms`. -/
theorem query_keys_deterministic (q1 q2 : GameQuery)
    (ps : List Platforms.Platform) (h : q1 = q2) :
    useGamesKey q1 = useGamesKey q2
    ∧ (useGamesConfig q1).queryKey = useGamesKey q1
    ∧ (useGamesConfig q1).queryFn = (useGamesConfig q2).queryFn
    ∧ useGenresConfig.queryKey = QueryKey.const "genres"
    ∧ (usePlatformsConfig ps).queryKey = QueryKey.const "platforms" := by
  subst h
  exact ⟨rfl, rfl, rfl, rfl, rfl⟩

/-- Witness for C5: two renders with the same concrete query. -/
theorem query_keys_deterministic_witness :
    useGamesKey sampleQuery = useGamesKey sampleQuery
    ∧ (useGamesConfig sampleQuery).queryKey = useGamesKey sampleQuery
    ∧ (useGamesConfig sampleQuery).queryFn = (useGamesConfig sampleQuery).queryFn
    ∧ useGenresConfig.queryKey = QueryKey.const "genres"
    ∧ (usePlatformsConfig []).queryKey = QueryKey.const "platforms" :=
  query_keys_deterministic sampleQuery sampleQuery [] rfl

/-- Claim C6: on a successful fetch (no error, not loading), `GameGrid`
renders exactly one `GameCard` per element of `data.results`, in order, each
wrapped in a `GameCardContainer` keyed by the id of that game; and whenever
the games hook reports loading it has no data yet, so the grid instead shows
exactly the six skeleton placeholders of the fixed `skeletons` array. -/
theorem gameGrid_renders (d : FetchResponse Game) (q : GameQuery)
    (cache : CacheState Game) (h : (useGames q cache).isLoading = true) :
    gameGrid none false (some d)
      = GameGridView.grid
          (d.results.map (fun g => { key := g.id, content := CellContent.card g }))
    ∧ (useGames q cache).data = none
    ∧ gameGrid none (useGames q cache).isLoading (useGames q cache).data
      = GameGridView.grid
          (skeletons.map (fun k => { key := k, content := CellContent.skeleton })) := by
  have hload : (useQueryModel (useGamesConfig q) cache).isLoading = true := h
  have hd : (useGames q cache).data = none :=
    useQueryModel_data_none_of_isLoading (useGamesConfig q) cache hload
  refine ⟨rfl, hd, ?_⟩
  rw [h, hd]
  rfl

/-- Witness for C6: a concrete response and a concrete loading render (an
empty cache, so the hook is loading). -/
theorem gameGrid_renders_witness :
    (useGames sampleQuery emptyCache).isLoading = true
    ∧ (gameGrid none false (some sampleResponse)
        = GameGridView.grid
            (sampleResponse.results.map
              (fun g => { key := g.id, content := CellContent.card g }))
      ∧ (useGames sampleQuery emptyCache).data = none
      ∧ gameGrid none (useGames sampleQuery emptyCache).isLoading
            (useGames sampleQuery emptyCache).data
        = GameGridView.grid
            (skeletons.map (fun k => { key := k, content := CellContent.skeleton }))) :=
  ⟨rfl, gameGrid_renders sampleResponse sampleQuery emptyCache rfl⟩

/-- Claim C7: the staleness policy of `usePlatforms` is only configuration:
the hook passes `staleTime = 24 * 60 * 60 * 1000`, that value equals exactly
86400000 milliseconds, and the hook itself is just the library applied to
this configuration. -/
theorem usePlatforms_staleTime (ps : List Platforms.Platform)
    (cache : CacheState Platforms.Platform) :
    (usePlatformsConfig ps).staleTime = 24 * 60 * 60 * 1000
    ∧ 24 * 60 * 60 * 1000 = 86400000
    ∧ usePlatforms ps cache = useQueryModel (usePlatformsConfig ps) cache :=
  ⟨rfl, by norm_num, rfl⟩

/-- Claim C8: `usePlatforms` never yields an absent result: on every cache
state (including before any network response) its returned data is defined,
because the configuration supplies `initialData` built from the bundled
platforms list; and the count field of that initial data equals the length of
its results array. -/
theorem usePlatforms_data_always_present (ps : List Platforms.Platform)
    (cache : CacheState Platforms.Platform) :
    ((usePlatforms ps cache).data).isSome = true
    ∧ (∀ r : FetchResponse Platforms.Platform,
        (usePlatformsConfig ps).initialData = some r →
          r.count = r.results.length) := by
  constructor
  · exact
      useQueryModel_data_isSome (usePlatformsConfig ps) cache
        { count := ps.length, results := ps } rfl
  · intro r hr
    have hr' : some { count := ps.length, results := ps } = some r := hr
    cases hr'
    rfl

/-- Witness for C8: a concrete one-element bundled list and an empty cache. -/
theorem usePlatforms_data_always_present_witness :
    ((usePlatforms [sampleListPlatform] emptyPlatformCache).data).isSome = true
    ∧ ({ count := 1, results := [sampleListPlatform] }
          : FetchResponse Platforms.Platform).count
      = ({ count := 1, results := [sampleListPlatform] }
          : FetchResponse Platforms.Platform).results.length :=
  ⟨(usePlatforms_data_always_present [sampleListPlatform] emptyPlatformCache).1,
   (usePlatforms_data_always_present [sampleListPlatform] emptyPlatformCache).2
     { count := 1, results := [sampleListPlatform] } rfl⟩

/-- Claim C9: when the genres fetch fails (`error` is truthy), `GenreList`
renders nothing at all: whatever the loading flag and whatever genre data is
at hand, the output is the `null` render — no genre rows and no spinner. -/
theorem genreList_error_renders_nothing (e : String) (isLoading : Bool)
    (data : List Genre) :
    genreList (some e) isLoading data = GenreListView.nothing :=
  rfl

/-- Claim C10: `useGames` is total over every `GameQuery`, in particular the
initial state created as an empty object: every query yields a well-defined
request to `/games`, and at the initial query the optional chaining yields
absent `genres` and `platforms` parameters and an absent `ordering`
parameter, so the first games request carries no genre, platform or ordering
constraint. -/
theorem useGames_total_initial_unconstrained :
    (∀ q : GameQuery, (useGamesRequest q).endpoint = "/games")
    ∧ useGamesParams initialGameQuery
      = { genres := none, platforms := none, ordering := none }
    ∧ useGamesRequest initialGameQuery
      = { endpoint := "/games"
        , params := { genres := none, platforms := none, ordering := none } } :=
  ⟨fun _ => rfl, rfl, rfl⟩
